import Mathlib

/-!
Shallow embedding of `src/loadrunner-tests/Next_2025-11-27T10-30-00-000Z/Next_Journey.c`.

The C file is a LoadRunner script: `Action()` runs a fixed six-step retail
journey by calling `execute_journey_step` six times, then posts a summary
event.  We embed the script as a pure function producing the ordered list of
observable library calls (`Event`s): transaction starts/ends, header
additions, outgoing HTTP requests, think times and error messages.

External inputs of the script are gathered in `Env`:
  * `vuser_id`, `session_id` — results of `lr_get_vuser_id` / `lr_get_session_id`;
  * `error_simulation` — the global `int error_simulation` (1 in the source,
    kept as a parameter so that both settings can be analysed);
  * `transport` — whether a given outgoing request (url, body) succeeds at the
    transport level.  The C code never inspects the result of
    `web_custom_request`, so this only shows up inside the emitted event.
`rng : Nat → Nat` models the C `rand()` stream: the i-th call to `rand()`
returns `rng i`; an index is threaded through since `rand()` is only invoked
when `error_simulation` is truthy (short-circuit `&&`).

LoadRunner string templates such as `"URL={full_url}"` are modelled by the
value of the named buffer, which is what the generated script evidently
intends to transmit.
-/

namespace NextJourney

/-- `char LSN[256] = "BizObs_Next_Retail_Journey";` -/
def LSN : String := "BizObs_Next_Retail_Journey"

/-- `char LTN[256] = "Next_Performance_Test_20251127";` -/
def LTN : String := "Next_Performance_Test_20251127"

/-- `char company_name[128] = "Next";` -/
def company_name : String := "Next"

/-- `char base_url[256] = "http://localhost:8080";` -/
def base_url : String := "http://localhost:8080"

/-- `int journey_steps = 6;` -/
def journey_steps : Nat := 6

/-- Transaction status constants `LR_PASS` / `LR_FAIL`. -/
inductive LrStatus
  | LR_PASS
  | LR_FAIL
deriving DecidableEq, Repr

open LrStatus

/-- One observable LoadRunner library call made by the script.
`web_custom_request` records the request name, resolved URL, method, content
type, body, and the transport outcome of the call. -/
inductive Event
  | lr_start_transaction (name : String)
  | lr_end_transaction (name : String) (status : LrStatus)
  | web_add_header (name value : String)
  | web_custom_request (name url method contentType body : String) (ok : Bool)
  | lr_think_time (amount : Nat)
  | lr_error_message (msg : String)
deriving DecidableEq, Repr

open Event

/-- External inputs of the script (see module docstring). -/
structure Env where
  vuser_id : Int
  session_id : String
  error_simulation : Nat
  transport : String → String → Bool

/-- The `sprintf` of the Dynatrace header:
`"VU: %d; SI: %s; TSN: %s; LSN: %s; LTN: %s"`. -/
def dt_header_for (env : Env) (tsn : String) : String :=
  "VU: " ++ toString env.vuser_id ++ "; SI: " ++ env.session_id ++
    "; TSN: " ++ tsn ++ "; LSN: " ++ LSN ++ "; LTN: " ++ LTN

/-- Embedding of `int execute_journey_step(char* step_name, char* endpoint,
char* method, char* body, int duration)`.  Returns the emitted events, the
C return value (`LR_PASS`/`LR_FAIL`), and the next `rand()` index. -/
def execute_journey_step (env : Env) (rng : Nat → Nat) (i : Nat)
    (step_name endpoint method body : String) (duration : Nat) :
    List Event × LrStatus × Nat :=
  let transaction_name := "Step_" ++ step_name
  let hdr := dt_header_for env step_name
  let full_url := base_url ++ endpoint
  let reqEvents :=
    if method = "POST" then
      [web_custom_request step_name full_url "POST" "application/json" body
        (env.transport full_url body)]
    else []
  let pre := lr_start_transaction transaction_name ::
      web_add_header "X-dynaTrace" hdr ::
      web_add_header "X-LoadRunner-Step" step_name ::
      reqEvents ++ [lr_think_time (duration * 1000)]
  if env.error_simulation ≠ 0 ∧ rng i % 100 < 5 then
    (pre ++ [lr_end_transaction transaction_name LR_FAIL,
             lr_error_message ("Simulated error in step: " ++ step_name)],
     LR_FAIL, i + 1)
  else
    (pre ++ [lr_end_transaction transaction_name LR_PASS],
     LR_PASS,
     if env.error_simulation ≠ 0 then i + 1 else i)

/-- Body of step 1, `ProductDiscovery`, verbatim from the source. -/
def body_ProductDiscovery : String :=
  "\x7b\"companyName\":\"Next\",\"stepName\":\"ProductDiscovery\",\"substeps\":[\x7b\"substepName\":\"Browse Categories\",\"duration\":5\x7d,\x7b\"substepName\":\"Search Products\",\"duration\":8\x7d]\x7d"

/-- Body of step 2, `CartManagement`, verbatim from the source. -/
def body_CartManagement : String :=
  "\x7b\"companyName\":\"Next\",\"stepName\":\"CartManagement\",\"substeps\":[\x7b\"substepName\":\"Add to Cart\",\"duration\":3\x7d,\x7b\"substepName\":\"Update Quantities\",\"duration\":5\x7d]\x7d"

/-- Body of step 3, `CheckoutProcess`, verbatim from the source. -/
def body_CheckoutProcess : String :=
  "\x7b\"companyName\":\"Next\",\"stepName\":\"CheckoutProcess\",\"substeps\":[\x7b\"substepName\":\"Payment Details\",\"duration\":12\x7d,\x7b\"substepName\":\"Delivery Options\",\"duration\":7\x7d]\x7d"

/-- Body of step 4, `OrderConfirmation`, verbatim from the source. -/
def body_OrderConfirmation : String :=
  "\x7b\"companyName\":\"Next\",\"stepName\":\"OrderConfirmation\",\"substeps\":[\x7b\"substepName\":\"Process Payment\",\"duration\":8\x7d,\x7b\"substepName\":\"Generate Receipt\",\"duration\":4\x7d]\x7d"

/-- Body of step 5, `FulfillmentProcessing`, verbatim from the source. -/
def body_FulfillmentProcessing : String :=
  "\x7b\"companyName\":\"Next\",\"stepName\":\"FulfillmentProcessing\",\"substeps\":[\x7b\"substepName\":\"Inventory Check\",\"duration\":6\x7d,\x7b\"substepName\":\"Prepare Order\",\"duration\":15\x7d]\x7d"

/-- Body of step 6, `DeliveryTracking`, verbatim from the source. -/
def body_DeliveryTracking : String :=
  "\x7b\"companyName\":\"Next\",\"stepName\":\"DeliveryTracking\",\"substeps\":[\x7b\"substepName\":\"Generate Tracking\",\"duration\":3\x7d,\x7b\"substepName\":\"Send Notifications\",\"duration\":5\x7d]\x7d"

/-- The `sprintf`-built body of the final `Journey_Summary` request, verbatim:
the concatenated C string literals with `%s`/`%d` substituted. -/
def summary_request_body (env : Env) : String :=
  "\x7b" ++
  "\"eventType\": \"JOURNEY_COMPLETE\"," ++
  "\"companyName\": \"Next\"," ++
  "\"testName\": \"" ++ LTN ++ "\"," ++
  "\"scriptName\": \"" ++ LSN ++ "\"," ++
  "\"vuserId\": " ++ toString env.vuser_id ++ "," ++
  "\"sessionId\": \"" ++ env.session_id ++ "\"," ++
  "\"timestamp\": \"2025-11-27T10:30:00.000Z\"," ++
  "\"totalSteps\": 6" ++
  "\x7d"

/-- The four library calls of the `Journey_Complete` block at the end of
`Action`. -/
def summary_events (env : Env) : List Event :=
  [lr_start_transaction "Journey_Complete",
   web_add_header "X-dynaTrace" (dt_header_for env "Journey_Complete"),
   web_custom_request "Journey_Summary" (base_url ++ "/api/journey-complete")
     "POST" "application/json" (summary_request_body env)
     (env.transport (base_url ++ "/api/journey-complete") (summary_request_body env)),
   lr_end_transaction "Journey_Complete" LR_PASS]

/-- Embedding of `Action()`.  Returns the full event trace and, for analysis,
the list of (step name, returned status) pairs of the six
`execute_journey_step` calls, in call order (the C caller discards the
return values; the statuses equal the step transaction outcomes). -/
def Action (env : Env) (rng : Nat → Nat) : List Event × List (String × LrStatus) :=
  let initEvents :=
    [lr_start_transaction "Journey_Initialization",
     web_add_header "X-dynaTrace" (dt_header_for env "Journey_Start"),
     web_add_header "X-LoadRunner-Company" company_name,
     lr_end_transaction "Journey_Initialization" LR_PASS]
  let r1 := execute_journey_step env rng 0 "ProductDiscovery" "/api/process" "POST"
      body_ProductDiscovery 13
  let r2 := execute_journey_step env rng r1.2.2 "CartManagement" "/api/process" "POST"
      body_CartManagement 8
  let r3 := execute_journey_step env rng r2.2.2 "CheckoutProcess" "/api/process" "POST"
      body_CheckoutProcess 19
  let r4 := execute_journey_step env rng r3.2.2 "OrderConfirmation" "/api/process" "POST"
      body_OrderConfirmation 12
  let r5 := execute_journey_step env rng r4.2.2 "FulfillmentProcessing" "/api/process" "POST"
      body_FulfillmentProcessing 21
  let r6 := execute_journey_step env rng r5.2.2 "DeliveryTracking" "/api/process" "POST"
      body_DeliveryTracking 8
  (initEvents ++ r1.1 ++ r2.1 ++ r3.1 ++ r4.1 ++ r5.1 ++ r6.1 ++ summary_events env,
   [("ProductDiscovery", r1.2.1), ("CartManagement", r2.2.1),
    ("CheckoutProcess", r3.2.1), ("OrderConfirmation", r4.2.1),
    ("FulfillmentProcessing", r5.2.1), ("DeliveryTracking", r6.2.1)])

/-- Does an event post the journey-completion summary
(`POST {base_url}/api/journey-complete`)? -/
def isSummaryRequest : Event → Bool
  | web_custom_request _ url _ _ _ _ => url == base_url ++ "/api/journey-complete"
  | _ => false

/-- Is the event an outgoing HTTP request? -/
def isRequest : Event → Bool
  | web_custom_request _ _ _ _ _ _ => true
  | _ => false

/-- Is the event a think-time (wait)? -/
def isThink : Event → Bool
  | lr_think_time _ => true
  | _ => false

/-- The transaction name started by the event, if any. -/
def txName : Event → Option String
  | lr_start_transaction n => some n
  | _ => none

/-- Total think time (in the units passed to `lr_think_time`) in a trace. -/
def thinkSum (evs : List Event) : Nat :=
  (evs.filterMap (fun e => match e with | lr_think_time t => some t | _ => none)).sum

/-- A transport in which every request succeeds. -/
def demo_transport : String → String → Bool := fun _ _ => true

/-- A transport in which every request fails (connection refused / timeout). -/
def failing_transport : String → String → Bool := fun _ _ => false

/-- Concrete environment: error simulation enabled (as in the source), healthy
transport. -/
def env_sim : Env := ⟨7, "SESSION-1", 1, demo_transport⟩

/-- Concrete environment: error simulation disabled, failing transport. -/
def env_nosim_fail : Env := ⟨7, "SESSION-1", 0, failing_transport⟩

/-- A `rand()` stream that always yields 0 (0 % 100 < 5: simulated failure). -/
def rng_zero : Nat → Nat := fun _ => 0

/-- A `rand()` stream that always yields 42 (42 % 100 ≥ 5: no simulated
failure). -/
def rng_fortytwo : Nat → Nat := fun _ => 42

/-- C1: every run of `Action` executes exactly `journey_steps = 6` steps and
produces one result per step, in the fixed order ProductDiscovery,
CartManagement, CheckoutProcess, OrderConfirmation, FulfillmentProcessing,
DeliveryTracking. -/
theorem run_produces_all_steps_in_order (env : Env) (rng : Nat → Nat) :
    (Action env rng).2.map Prod.fst =
      ["ProductDiscovery", "CartManagement", "CheckoutProcess",
       "OrderConfirmation", "FulfillmentProcessing", "DeliveryTracking"] ∧
    (Action env rng).2.length = journey_steps :=
  ⟨rfl, rfl⟩

/-- C4: with error simulation enabled, a step is marked failed exactly when
`rand() % 100 < 5`; the transport outcome (part of `env`, universally
quantified) plays no role. -/
theorem simulated_error_iff_rand_below_five (env : Env) (rng : Nat → Nat)
    (i : Nat) (n ep m b : String) (d : Nat) (hsim : env.error_simulation ≠ 0) :
    (execute_journey_step env rng i n ep m b d).2.1 = LR_FAIL ↔
      rng i % 100 < 5 := by
  unfold execute_journey_step
  by_cases hr : rng i % 100 < 5
  · simp [hsim, hr]
  · simp [hsim, hr]

/-- Witness for C4 at a concrete input: simulation on, `rand()` yields 0. -/
theorem simulated_error_iff_rand_below_five_witness :
    env_sim.error_simulation ≠ 0 ∧
    ((execute_journey_step env_sim rng_zero 0 "ProductDiscovery" "/api/process"
        "POST" body_ProductDiscovery 13).2.1 = LR_FAIL ↔ rng_zero 0 % 100 < 5) :=
  ⟨by decide,
   simulated_error_iff_rand_below_five env_sim rng_zero 0 "ProductDiscovery"
     "/api/process" "POST" body_ProductDiscovery 13 (by decide)⟩

/-- C3 counterexample: with error simulation disabled and a transport that
fails every request, the step is still marked `LR_PASS` — contradicting the
claim that a transport failure causes the step to be marked failed. -/
theorem transport_failure_step_still_passes :
    env_nosim_fail.error_simulation = 0 ∧
    env_nosim_fail.transport (base_url ++ "/api/process") body_ProductDiscovery
      = false ∧
    (execute_journey_step env_nosim_fail rng_zero 0 "ProductDiscovery"
        "/api/process" "POST" body_ProductDiscovery 13).2.1 = LR_PASS ∧
    ¬ (execute_journey_step env_nosim_fail rng_zero 0 "ProductDiscovery"
        "/api/process" "POST" body_ProductDiscovery 13).2.1 = LR_FAIL :=
  ⟨rfl, rfl, rfl, by decide⟩

/-- C3 amended: with error simulation disabled, every step is marked passed
regardless of the transport outcome (`rand()` is not even consulted: the
stream index is unchanged), and the runner continues with the next step. -/
theorem no_simulation_always_pass (env : Env) (rng : Nat → Nat) (i : Nat)
    (n ep m b : String) (d : Nat) (hoff : env.error_simulation = 0) :
    (execute_journey_step env rng i n ep m b d).2.1 = LR_PASS ∧
    (execute_journey_step env rng i n ep m b d).2.2 = i := by
  unfold execute_journey_step
  simp [hoff]

/-- Witness for the amended C3 at a concrete input. -/
theorem no_simulation_always_pass_witness :
    env_nosim_fail.error_simulation = 0 ∧
    (execute_journey_step env_nosim_fail rng_zero 0 "CartManagement"
        "/api/process" "POST" body_CartManagement 8).2.1 = LR_PASS :=
  ⟨rfl,
   (no_simulation_always_pass env_nosim_fail rng_zero 0 "CartManagement"
      "/api/process" "POST" body_CartManagement 8 rfl).1⟩

/-- No step call (endpoint `/api/process`) ever emits the summary request. -/
theorem exec_filter_no_summary (env : Env) (rng : Nat → Nat) (i : Nat)
    (n m b : String) (d : Nat) :
    ((execute_journey_step env rng i n "/api/process" m b d).1.filter
      isSummaryRequest) = [] := by
  unfold execute_journey_step
  by_cases hm : m = "POST" <;>
    by_cases hc : env.error_simulation ≠ 0 ∧ rng i % 100 < 5 <;>
      simp [hm, hc, isSummaryRequest, base_url]

/-- C2: for every environment and `rand()` stream — in particular no matter
how many steps fail by transport or by simulated error — the trace of
`Action` contains the `Journey_Summary` POST to
`{base_url}/api/journey-complete` exactly once, and the `Journey_Complete`
block is the final segment of the trace. -/
theorem summary_emitted_once_at_end (env : Env) (rng : Nat → Nat) :
    (Action env rng).1.filter isSummaryRequest =
      [web_custom_request "Journey_Summary" (base_url ++ "/api/journey-complete")
         "POST" "application/json" (summary_request_body env)
         (env.transport (base_url ++ "/api/journey-complete")
           (summary_request_body env))] ∧
    ∃ h, (Action env rng).1 = h ++ summary_events env := by
  refine ⟨?_, ⟨_, rfl⟩⟩
  simp only [Action, List.filter_append, exec_filter_no_summary]
  simp [isSummaryRequest, summary_events]

/-- Every step call starts exactly one transaction, named `Step_` followed by
the step name. -/
theorem exec_txNames (env : Env) (rng : Nat → Nat) (i : Nat)
    (n ep m b : String) (d : Nat) :
    (execute_journey_step env rng i n ep m b d).1.filterMap txName =
      ["Step_" ++ n] := by
  unfold execute_journey_step
  by_cases hm : m = "POST" <;>
    by_cases hc : env.error_simulation ≠ 0 ∧ rng i % 100 < 5 <;>
      simp [hm, hc, txName]

/-- C8: within a single run the transactions started are exactly
`Journey_Initialization`, the six `Step_<name>` transactions, and
`Journey_Complete`, and these eight names are pairwise distinct. -/
theorem transaction_names_unique (env : Env) (rng : Nat → Nat) :
    (Action env rng).1.filterMap txName =
      ["Journey_Initialization", "Step_ProductDiscovery", "Step_CartManagement",
       "Step_CheckoutProcess", "Step_OrderConfirmation",
       "Step_FulfillmentProcessing", "Step_DeliveryTracking",
       "Journey_Complete"] ∧
    List.Nodup
      ["Journey_Initialization", "Step_ProductDiscovery", "Step_CartManagement",
       "Step_CheckoutProcess", "Step_OrderConfirmation",
       "Step_FulfillmentProcessing", "Step_DeliveryTracking",
       "Journey_Complete"] := by
  constructor
  · simp only [Action, List.filterMap_append, exec_txNames]
    simp [txName, summary_events]
  · decide

/-- Render one field of a flat JSON object, `"name": value`, as the summary
`sprintf` format does. -/
def jsonField (kv : String × String) : String := "\"" ++ kv.1 ++ "\": " ++ kv.2

/-- Comma-separated join of rendered fields. -/
def joinComma : List String → String
  | [] => ""
  | [a] => a
  | a :: b :: rest => a ++ "," ++ joinComma (b :: rest)

/-- Modelled from the spec: a flat JSON object with exactly the given fields,
in order. -/
def mkJsonObject (fields : List (String × String)) : String :=
  "\x7b" ++ joinComma (fields.map jsonField) ++ "\x7d"

/-- JSON string quoting as used by the script (no escaping in the source). -/
def quoteJson (s : String) : String := "\"" ++ s ++ "\""

set_option maxRecDepth 4000 in
/-- C6: the final summary event is the `Journey_Summary` POST to
`{base_url}/api/journey-complete`, present in every run's trace, and its body
is the flat JSON object with exactly the fields eventType, companyName,
testName, scriptName, vuserId, sessionId, timestamp, totalSteps — with
totalSteps rendering `journey_steps = 6`. -/
theorem summary_event_shape (env : Env) (rng : Nat → Nat) :
    web_custom_request "Journey_Summary" (base_url ++ "/api/journey-complete")
        "POST" "application/json" (summary_request_body env)
        (env.transport (base_url ++ "/api/journey-complete")
          (summary_request_body env)) ∈ (Action env rng).1 ∧
    summary_request_body env = mkJsonObject
      [("eventType", quoteJson "JOURNEY_COMPLETE"),
       ("companyName", quoteJson company_name),
       ("testName", quoteJson LTN),
       ("scriptName", quoteJson LSN),
       ("vuserId", toString env.vuser_id),
       ("sessionId", quoteJson env.session_id),
       ("timestamp", quoteJson "2025-11-27T10:30:00.000Z"),
       ("totalSteps", toString journey_steps)] := by
  constructor
  · have hsplit : ∃ t, (Action env rng).1 = t ++ summary_events env := ⟨_, rfl⟩
    obtain ⟨t, ht⟩ := hsplit
    rw [ht]
    simp [summary_events]
  · apply String.ext
    simp only [summary_request_body, mkJsonObject, joinComma, jsonField,
      quoteJson, List.map, String.data_append, List.append_assoc]
    rfl

/-- Is the event the addition of a header named `X-Correlation`? -/
def isCorrelationHeader : Event → Bool
  | web_add_header h _ => h == "X-Correlation"
  | _ => false

/-- Is the event the addition of any header? -/
def isHeaderAdd : Event → Bool
  | web_add_header _ _ => true
  | _ => false

/-- C5 counterexample: on a concrete run of a step, no header named
`X-Correlation` is ever added; the headers actually added are `X-dynaTrace`
(with `VU: ...; SI: ...; TSN: ...; LSN: ...; LTN: ...` formatting, not
`VU=...; Session=...`) and `X-LoadRunner-Step`. -/
theorem no_xcorrelation_header :
    (execute_journey_step env_sim rng_fortytwo 0 "ProductDiscovery"
        "/api/process" "POST" body_ProductDiscovery 13).1.filter
      isCorrelationHeader = [] ∧
    (execute_journey_step env_sim rng_fortytwo 0 "ProductDiscovery"
        "/api/process" "POST" body_ProductDiscovery 13).1.filter isHeaderAdd =
      [web_add_header "X-dynaTrace"
         "VU: 7; SI: SESSION-1; TSN: ProductDiscovery; LSN: BizObs_Next_Retail_Journey; LTN: Next_Performance_Test_20251127",
       web_add_header "X-LoadRunner-Step" "ProductDiscovery"] := by
  constructor
  · decide
  · decide

/-- C5 amended: every step request is a POST to `base_url ++ endpoint`,
preceded by a correlation header named `X-dynaTrace` whose value has the form
`VU: <id>; SI: <session>; TSN: <step name>; LSN: <LSN>; LTN: <LTN>`, built
from the virtual-user id, session id, and the executing step's name. -/
theorem step_request_shape (env : Env) (rng : Nat → Nat) (i : Nat)
    (n ep b : String) (d : Nat) :
    (∃ rest, (execute_journey_step env rng i n ep "POST" b d).1 =
      [lr_start_transaction ("Step_" ++ n),
       web_add_header "X-dynaTrace" (dt_header_for env n),
       web_add_header "X-LoadRunner-Step" n,
       web_custom_request n (base_url ++ ep) "POST" "application/json" b
         (env.transport (base_url ++ ep) b),
       lr_think_time (d * 1000)] ++ rest) ∧
    dt_header_for env n =
      "VU: " ++ toString env.vuser_id ++ "; SI: " ++ env.session_id ++
        "; TSN: " ++ n ++ "; LSN: " ++ LSN ++ "; LTN: " ++ LTN := by
  refine ⟨?_, rfl⟩
  unfold execute_journey_step
  by_cases hc : env.error_simulation ≠ 0 ∧ rng i % 100 < 5
  · refine ⟨[lr_end_transaction ("Step_" ++ n) LR_FAIL,
             lr_error_message ("Simulated error in step: " ++ n)], ?_⟩
    simp [hc]
  · refine ⟨[lr_end_transaction ("Step_" ++ n) LR_PASS], ?_⟩
    simp [hc]

/-- Each step call emits exactly one think time, of `duration * 1000` units,
immediately before the transaction end. -/
theorem exec_think_shape (env : Env) (rng : Nat → Nat) (i : Nat)
    (n ep m b : String) (d : Nat) :
    (execute_journey_step env rng i n ep m b d).1.filter isThink =
      [lr_think_time (d * 1000)] ∧
    ∃ h st rest, (execute_journey_step env rng i n ep m b d).1 =
      h ++ lr_think_time (d * 1000) ::
        lr_end_transaction ("Step_" ++ n) st :: rest := by
  unfold execute_journey_step
  by_cases hm : m = "POST" <;>
    by_cases hc : env.error_simulation ≠ 0 ∧ rng i % 100 < 5
  · exact ⟨by simp [hm, hc, isThink],
      ⟨[lr_start_transaction ("Step_" ++ n),
        web_add_header "X-dynaTrace" (dt_header_for env n),
        web_add_header "X-LoadRunner-Step" n,
        web_custom_request n (base_url ++ ep) "POST" "application/json" b
          (env.transport (base_url ++ ep) b)], LR_FAIL,
       [lr_error_message ("Simulated error in step: " ++ n)], by simp [hm, hc]⟩⟩
  · exact ⟨by simp [hm, hc, isThink],
      ⟨[lr_start_transaction ("Step_" ++ n),
        web_add_header "X-dynaTrace" (dt_header_for env n),
        web_add_header "X-LoadRunner-Step" n,
        web_custom_request n (base_url ++ ep) "POST" "application/json" b
          (env.transport (base_url ++ ep) b)], LR_PASS, [], by simp [hm, hc]⟩⟩
  · exact ⟨by simp [hm, hc, isThink],
      ⟨[lr_start_transaction ("Step_" ++ n),
        web_add_header "X-dynaTrace" (dt_header_for env n),
        web_add_header "X-LoadRunner-Step" n], LR_FAIL,
       [lr_error_message ("Simulated error in step: " ++ n)], by simp [hm, hc]⟩⟩
  · exact ⟨by simp [hm, hc, isThink],
      ⟨[lr_start_transaction ("Step_" ++ n),
        web_add_header "X-dynaTrace" (dt_header_for env n),
        web_add_header "X-LoadRunner-Step" n], LR_PASS, [],
       by simp [hm, hc]⟩⟩

/-- The total think time of one step call is `duration * 1000`. -/
theorem exec_thinkSum (env : Env) (rng : Nat → Nat) (i : Nat)
    (n ep m b : String) (d : Nat) :
    thinkSum (execute_journey_step env rng i n ep m b d).1 = d * 1000 := by
  unfold execute_journey_step
  by_cases hm : m = "POST" <;>
    by_cases hc : env.error_simulation ≠ 0 ∧ rng i % 100 < 5 <;>
      simp [hm, hc, thinkSum]

/-- C7: every step call waits exactly `duration * 1000` units
(`duration` seconds as milliseconds) after sending its request and before its
transaction ends; in particular two steps of durations 1 and 2 wait
3000 ms = 3 s in total, whatever the transport latency adds. -/
theorem step_wait_duration :
    (∀ (env : Env) (rng : Nat → Nat) (i : Nat) (n ep m b : String) (d : Nat),
      (execute_journey_step env rng i n ep m b d).1.filter isThink =
        [lr_think_time (d * 1000)] ∧
      ∃ h st rest, (execute_journey_step env rng i n ep m b d).1 =
        h ++ lr_think_time (d * 1000) ::
          lr_end_transaction ("Step_" ++ n) st :: rest) ∧
    (∀ (env : Env) (rng : Nat → Nat) (i : Nat) (n ep b : String) (d : Nat),
      ∃ st rest, (execute_journey_step env rng i n ep "POST" b d).1 =
        [lr_start_transaction ("Step_" ++ n),
         web_add_header "X-dynaTrace" (dt_header_for env n),
         web_add_header "X-LoadRunner-Step" n,
         web_custom_request n (base_url ++ ep) "POST" "application/json" b
           (env.transport (base_url ++ ep) b),
         lr_think_time (d * 1000),
         lr_end_transaction ("Step_" ++ n) st] ++ rest) ∧
    (∀ (env : Env) (rng : Nat → Nat),
      thinkSum (execute_journey_step env rng 0 "A" "/api/process" "POST"
          "bodyA" 1).1 +
        thinkSum (execute_journey_step env rng
          (execute_journey_step env rng 0 "A" "/api/process" "POST"
            "bodyA" 1).2.2 "B" "/api/process" "POST" "bodyB" 2).1 =
        3 * 1000) := by
  refine ⟨fun env rng i n ep m b d => exec_think_shape env rng i n ep m b d,
    ?_, ?_⟩
  · intro env rng i n ep b d
    unfold execute_journey_step
    by_cases hc : env.error_simulation ≠ 0 ∧ rng i % 100 < 5
    · exact ⟨LR_FAIL,
        [lr_error_message ("Simulated error in step: " ++ n)], by simp [hc]⟩
    · exact ⟨LR_PASS, [], by simp [hc]⟩
  · intro env rng
    simp [exec_thinkSum]

/-- C9: with any method other than `"POST"`, `execute_journey_step` sends no
request at all, yet still starts the step transaction, still waits the full
think time, and still returns the same status and `rand()` index as the
`"POST"` variant would. -/
theorem non_post_method_sends_no_request (env : Env) (rng : Nat → Nat)
    (i : Nat) (n ep m b : String) (d : Nat) (hm : m ≠ "POST") :
    (execute_journey_step env rng i n ep m b d).1.filter isRequest = [] ∧
    lr_start_transaction ("Step_" ++ n) ∈
      (execute_journey_step env rng i n ep m b d).1 ∧
    (execute_journey_step env rng i n ep m b d).1.filter isThink =
      [lr_think_time (d * 1000)] ∧
    (execute_journey_step env rng i n ep m b d).2 =
      (execute_journey_step env rng i n ep "POST" b d).2 := by
  unfold execute_journey_step
  by_cases hc : env.error_simulation ≠ 0 ∧ rng i % 100 < 5 <;>
    simp [hm, hc, isRequest, isThink]

/-- Witness for C9 at a concrete input with method `"GET"`. -/
theorem non_post_method_sends_no_request_witness :
    ("GET" : String) ≠ "POST" ∧
    ((execute_journey_step env_sim rng_fortytwo 0 "CheckoutProcess"
        "/api/process" "GET" body_CheckoutProcess 19).1.filter isRequest = [] ∧
     lr_start_transaction ("Step_" ++ "CheckoutProcess") ∈
       (execute_journey_step env_sim rng_fortytwo 0 "CheckoutProcess"
         "/api/process" "GET" body_CheckoutProcess 19).1 ∧
     (execute_journey_step env_sim rng_fortytwo 0 "CheckoutProcess"
         "/api/process" "GET" body_CheckoutProcess 19).1.filter isThink =
       [lr_think_time (19 * 1000)] ∧
     (execute_journey_step env_sim rng_fortytwo 0 "CheckoutProcess"
         "/api/process" "GET" body_CheckoutProcess 19).2 =
       (execute_journey_step env_sim rng_fortytwo 0 "CheckoutProcess"
         "/api/process" "POST" body_CheckoutProcess 19).2) :=
  ⟨by decide,
   non_post_method_sends_no_request env_sim rng_fortytwo 0 "CheckoutProcess"
     "/api/process" "GET" body_CheckoutProcess 19 (by decide)⟩

/-- C10: when the simulated-error branch fires (simulation on and
`rand() % 100 < 5`), the step's trace still contains the request and the full
`duration * 1000` think time, both strictly before the failing transaction
end: failure injection never skips or shortens the wait. -/
theorem simulated_failure_after_request_and_wait (env : Env)
    (rng : Nat → Nat) (i : Nat) (n ep b : String) (d : Nat)
    (hsim : env.error_simulation ≠ 0) (hr : rng i % 100 < 5) :
    (execute_journey_step env rng i n ep "POST" b d).1 =
      [lr_start_transaction ("Step_" ++ n),
       web_add_header "X-dynaTrace" (dt_header_for env n),
       web_add_header "X-LoadRunner-Step" n,
       web_custom_request n (base_url ++ ep) "POST" "application/json" b
         (env.transport (base_url ++ ep) b),
       lr_think_time (d * 1000),
       lr_end_transaction ("Step_" ++ n) LR_FAIL,
       lr_error_message ("Simulated error in step: " ++ n)] ∧
    (execute_journey_step env rng i n ep "POST" b d).2.1 = LR_FAIL := by
  unfold execute_journey_step
  simp [hsim, hr]

/-- Witness for C10 at a concrete input: simulation on, `rand()` yields 0. -/
theorem simulated_failure_after_request_and_wait_witness :
    env_sim.error_simulation ≠ 0 ∧ rng_zero 0 % 100 < 5 ∧
    ((execute_journey_step env_sim rng_zero 0 "DeliveryTracking"
        "/api/process" "POST" body_DeliveryTracking 8).1 =
      [lr_start_transaction ("Step_" ++ "DeliveryTracking"),
       web_add_header "X-dynaTrace" (dt_header_for env_sim "DeliveryTracking"),
       web_add_header "X-LoadRunner-Step" "DeliveryTracking",
       web_custom_request "DeliveryTracking" (base_url ++ "/api/process")
         "POST" "application/json" body_DeliveryTracking
         (env_sim.transport (base_url ++ "/api/process") body_DeliveryTracking),
       lr_think_time (8 * 1000),
       lr_end_transaction ("Step_" ++ "DeliveryTracking") LR_FAIL,
       lr_error_message ("Simulated error in step: " ++ "DeliveryTracking")] ∧
     (execute_journey_step env_sim rng_zero 0 "DeliveryTracking"
        "/api/process" "POST" body_DeliveryTracking 8).2.1 = LR_FAIL) :=
  ⟨by decide, by decide,
   simulated_failure_after_request_and_wait env_sim rng_zero 0
     "DeliveryTracking" "/api/process" body_DeliveryTracking 8
     (by decide) (by decide)⟩

end NextJourney
